import Mathlib

/-!
Verification of the autosend SDK request-construction and validation layer.

Shallow embedding of the Python sources:
  * `src/autosend/errors.py`    — the exception class hierarchy,
  * `src/autosend/client.py`    — `AutosendClient._request` outcome classification,
  * `src/autosend/resources/sending.py`  — placeholder extraction and the
    validations/payload building of `send_email` and `send_bulk`,
  * `src/autosend/resources/contacts.py` — `_validate_email` and `bulk_update`.

Python dicts with string keys are modelled as association lists
`List (String × JValue)`; exceptions become `Except` error values; the HTTP
transport is modelled by classifying a given `RequestOutcome` the way
`_request` does, a request that is actually issued being represented by the
`ApiRequest` value an operation returns on success (an operation that
returns `.error` never reached its `client.post` call).
-/

namespace Autosend

/-- JSON-like values, covering everything the SDK puts into request bodies. -/
inductive JValue where
  | str (s : String)
  | num (n : Int)
  | bool (b : Bool)
  | obj (fields : List (String × JValue))
  | arr (elems : List JValue)
  | null

/-- A recipient dict passed to `send_bulk`: `Dict[str, str]` which may or may
not contain the `email` and `name` keys (`none` = key absent). -/
structure Recipient where
  email : Option String
  name : Option String
deriving DecidableEq

/-- A contact dict passed to `bulk_update`: only the `email` key is inspected
by the validation code (`none` = key absent); other fields are passed through
untouched and play no role in any validation. -/
structure Contact where
  email : Option String
deriving DecidableEq

/-- An attachment dict: `_validate_attachments` reads `file.get("filename", "")`
(`filename = none` models an absent key, read back as `""`); the whole dict is
passed through to the payload unchanged, modelled by the opaque `content`. -/
structure Attachment where
  filename : Option String
  content : JValue

/-- The `value` attribute a `ValidationError` can carry: a string (filename,
URL, email), a list of strings (`list(missing)`), an int (`len(contacts)`),
a recipient dict or a contact dict. -/
inductive ErrValue where
  | str (s : String)
  | strs (l : List String)
  | num (n : Nat)
  | recipient (r : Recipient)
  | contact (c : Contact)
deriving DecidableEq

/-- `ValidationError(message, field=..., value=...)` from `errors.py`: the
message plus the stored `field` and `value` attributes. -/
structure ValidationError where
  message : String
  field : Option String
  value : Option ErrValue
deriving DecidableEq

/-- The request an operation hands to `client.post` / `client.delete`:
HTTP method, endpoint path, JSON body. -/
structure ApiRequest where
  method : String
  path : String
  body : List (String × JValue)

/-! ## Error class hierarchy (`errors.py`) -/

/-- The exception classes of `errors.py` together with Python's builtin
`Exception` they ultimately derive from. -/
inductive ExcClass where
  | exception
  | autosendError
  | authenticationError
  | requestError
  | validationError
deriving DecidableEq

/-- The direct base class of each class, exactly as declared in `errors.py`:
`AutosendError(Exception)`, `AuthenticationError(AutosendError)`,
`RequestError(AutosendError)`, `ValidationError(AutosendError)`. -/
def parentClass : ExcClass → Option ExcClass
  | .exception => none
  | .autosendError => some .exception
  | .authenticationError => some .autosendError
  | .requestError => some .autosendError
  | .validationError => some .autosendError

/-- The chain of ancestors of a class obtained by following `parentClass`,
fuelled (4 is more than the depth of the hierarchy). -/
def ancestors_from : Nat → ExcClass → List ExcClass
  | 0, c => [c]
  | n + 1, c =>
    c :: (match parentClass c with
      | some p => ancestors_from n p
      | none => [])

/-- All classes `c` is an instance of (itself and its ancestor chain). -/
def ancestors (c : ExcClass) : List ExcClass := ancestors_from 4 c

/-- Python `issubclass c d` for this hierarchy: `d` occurs in the ancestor
chain of `c`. An instance of `c` is caught by `except d` exactly when this
holds. -/
def isSubclassOf (c d : ExcClass) : Bool := decide (d ∈ ancestors c)

/-! ## Transport adapter (`client.py`, `_request`) -/

/-- The HTTP response `requests.request` hands back: status code, `.text`,
and `.json()` — `none` when the body is not JSON-parseable (`ValueError`). -/
structure HttpResponse where
  statusCode : Nat
  text : String
  jsonBody : Option JValue

/-- The outcome of the `requests.request(...)` call inside `_request`:
either the call itself raised a `requests.RequestException`, or it produced
a response. -/
inductive RequestOutcome where
  | networkFailure (msg : String)
  | response (r : HttpResponse)

/-- An exception raised by `_request`, tagged with enough payload to state
what it carries. -/
inductive RaisedError where
  | requestError (msg : String)
  | authenticationError (msg : String)
  | autosendError (status : Nat) (text : String)
  | validationError (e : ValidationError)

/-- The Python class of a raised error. -/
def classOf : RaisedError → ExcClass
  | .requestError _ => .requestError
  | .authenticationError _ => .authenticationError
  | .autosendError _ _ => .autosendError
  | .validationError _ => .validationError

/-- What `_request` returns on success: `response.json()` when parseable,
otherwise `response.text`. -/
inductive ResponseBody where
  | json (v : JValue)
  | text (s : String)

/-- The overall result of `_request`. -/
inductive RequestResult where
  | success (b : ResponseBody)
  | failure (e : RaisedError)

/-- `requests.Response.ok`: `True` unless `raise_for_status()` would raise,
i.e. unless `400 <= status_code < 600`. -/
def responseOk (status : Nat) : Bool := decide (status < 400 ∨ 600 ≤ status)

/-- `AutosendClient._request`, outcome classification (client.py lines 82-94):
a `requests.RequestException` becomes `RequestError`; status 401 becomes
`AuthenticationError`; a response that is not `ok` becomes a bare
`AutosendError` built from the status code and body text; otherwise the
parsed JSON (or the raw text when parsing fails) is returned. -/
def handleRequest : RequestOutcome → RequestResult
  | .networkFailure msg =>
      .failure (.requestError ("HTTP request failed: " ++ msg))
  | .response r =>
      if r.statusCode = 401 then
        .failure (.authenticationError "Invalid or unauthorized API key.")
      else if ¬ responseOk r.statusCode then
        .failure (.autosendError r.statusCode r.text)
      else
        match r.jsonBody with
        | some v => .success (.json v)
        | none => .success (.text r.text)

/-! ## Placeholder extraction (`sending.py`, `_extract_placeholders`)

`re.findall(r"{{\s*(\w+)\s*}}", html)` scanned left to right, non-overlapping.
Since the character classes of `\s`, `\w` and the closing braces are pairwise
disjoint, greedy matching with no backtracking computes exactly the regex
match at each position. -/

/-- The character `\x7b` (opening curly brace). -/
def lbrace : Char := Char.ofNat 123

/-- The character `\x7d` (closing curly brace). -/
def rbrace : Char := Char.ofNat 125

/-- Python regex `\s` (ASCII range). -/
def is_space_char (c : Char) : Bool :=
  c = ' ' || c = '\t' || c = '\n' || c = '\r' || c = '\x0b' || c = '\x0c'

/-- Python regex `\w` (ASCII range): letters, digits, underscore. -/
def is_word_char (c : Char) : Bool :=
  c.isAlphanum || c = '_'

/-- Try to match `{{\s*(\w+)\s*}}` at the head of the character list.
On success, return the captured word and the characters after the match. -/
def match_placeholder : List Char → Option (String × List Char)
  | a :: b :: rest =>
      if a = lbrace ∧ b = lbrace then
        let afterWs := rest.dropWhile is_space_char
        let word := afterWs.takeWhile is_word_char
        let afterWord := afterWs.dropWhile is_word_char
        if word.isEmpty then none
        else
          match afterWord.dropWhile is_space_char with
          | c :: d :: tail =>
              if c = rbrace ∧ d = rbrace then some (String.mk word, tail)
              else none
          | _ => none
      else none
  | _ => none

/-- Left-to-right non-overlapping scan: at each position try the pattern; on
a match continue after it, otherwise advance one character.  Fuelled by the
input length (each step consumes at least one character and one unit of
fuel, so fuel = initial length suffices). -/
def scan_placeholders : Nat → List Char → List String
  | 0, _ => []
  | _, [] => []
  | fuel + 1, c :: cs =>
      match match_placeholder (c :: cs) with
      | some (w, tail) => w :: scan_placeholders fuel tail
      | none => scan_placeholders fuel cs

/-- `Sending._extract_placeholders`: all placeholder names found in `html`
(as a list, before Python's `set(...)` is applied). -/
def _extract_placeholders (html : String) : List String :=
  scan_placeholders html.length html.data

/-- `set(re.findall(...))`: the set of placeholder names of `html`. -/
def placeholder_set (html : String) : Finset String :=
  (_extract_placeholders html).toFinset

/-- `set(dynamic_data.keys())` for a dict modelled as an association list. -/
def provided_key_set (dynamic_data : List (String × JValue)) : Finset String :=
  (dynamic_data.map Prod.fst).toFinset

/-- `missing = placeholders - provided_keys`. -/
def missing_set (html : String) (dynamic_data : List (String × JValue)) : Finset String :=
  placeholder_set html \ provided_key_set dynamic_data

/-- `list(missing)`: the missing set enumerated as a list (Python's set
iteration order is unspecified; the model enumerates placeholders in first
occurrence order, keeping those without a provided key, without
duplicates). -/
def missing_list (html : String) (dynamic_data : List (String × JValue)) : List String :=
  ((_extract_placeholders html).filter
    (fun p => !((dynamic_data.map Prod.fst).contains p))).dedup

/-! ## Validations (`sending.py`) -/

/-- `Sending._validate_dynamic_data` (sending.py lines 31-55): raise when
`missing` is non-empty (carrying `list(missing)`); otherwise raise when
placeholders exist but the dict is empty; the `extra` branch only logs at
debug level and never raises, so it does not appear in the model. -/
def _validate_dynamic_data (html : String) (dynamic_data : List (String × JValue)) :
    Except ValidationError Unit :=
  if missing_list html dynamic_data ≠ [] then
    .error ⟨"Missing values for template placeholders", some "dynamicData",
      some (.strs (missing_list html dynamic_data))⟩
  else if _extract_placeholders html ≠ [] ∧ dynamic_data.isEmpty = true then
    .error ⟨"HTML contains template placeholders but dynamicData is empty",
      some "dynamicData", none⟩
  else
    .ok ()

/-- The blocked extension set of `_validate_attachments`, transcribed from
sending.py lines 67-79. -/
def blocked_extensions : List String :=
  [".adp", ".app", ".asp", ".bas", ".bat", ".cer", ".chm", ".cmd", ".com",
   ".cpl", ".crt", ".csh", ".der", ".exe", ".fxp", ".gadget", ".hlp", ".hta",
   ".inf", ".ins", ".isp", ".its", ".js", ".jse", ".ksh", ".lib", ".lnk",
   ".mad", ".maf", ".mag", ".mam", ".maq", ".mar", ".mas", ".mat", ".mau",
   ".mav", ".maw", ".mda", ".mdb", ".mde", ".mdt", ".mdw", ".mdz", ".msc",
   ".msh", ".msh1", ".msh2", ".mshxml", ".msh1xml", ".msh2xml", ".msi",
   ".msp", ".mst", ".ops", ".pcd", ".pif", ".plg", ".prf", ".prg", ".reg",
   ".scf", ".scr", ".sct", ".shb", ".shs", ".sys", ".ps1", ".ps1xml", ".ps2",
   ".ps2xml", ".psc1", ".psc2", ".tmp", ".url", ".vb", ".vbe", ".vbs", ".vps",
   ".vsmacros", ".vss", ".vst", ".vsw", ".vxd", ".ws", ".wsc", ".wsf", ".wsh",
   ".xnk"]

/-- `file.get("filename", "")`. -/
def attachment_filename (a : Attachment) : String :=
  a.filename.getD ""

/-- Python `str.split(sep)` for a one-character separator, on character
lists: always returns at least one (possibly empty) segment. -/
def split_on_char (sep : Char) : List Char → List (List Char)
  | [] => [[]]
  | x :: xs =>
      match split_on_char sep xs with
      | [] => [[]]
      | seg :: segs =>
          if x = sep then [] :: seg :: segs
          else (x :: seg) :: segs

/-- `ext = "." + filename.split(".")[-1].lower() if "." in filename else ""`. -/
def file_ext (filename : String) : String :=
  if filename.data.contains '.' then
    "." ++ String.mk (((split_on_char '.' filename.data).getLastD []).map Char.toLower)
  else ""

/-- Whether a filename is rejected by the extension check. -/
def is_blocked_filename (filename : String) : Bool :=
  decide (file_ext filename ∈ blocked_extensions)

/-- The `for file in attachments` loop of `_validate_attachments`: raise on
the first file whose extension is blocked, carrying the filename. -/
def check_attachments : List Attachment → Except ValidationError Unit
  | [] => .ok ()
  | file :: rest =>
      let filename := attachment_filename file
      let ext := file_ext filename
      if ext ∈ blocked_extensions then
        .error ⟨"Attachment type " ++ ext ++ " is not supported.",
          some "attachments", some (.str filename)⟩
      else check_attachments rest

/-- `Sending._validate_attachments` (sending.py lines 57-89): return
immediately when the argument is `None` or the empty list, raise when more
than 20 attachments, otherwise run the extension loop. -/
def _validate_attachments (attachments : Option (List Attachment)) :
    Except ValidationError Unit :=
  match attachments with
  | none => .ok ()
  | some atts =>
      if atts.isEmpty then .ok ()
      else if atts.length > 20 then
        .error ⟨"A maximum of 20 attachments is allowed.", some "attachments", none⟩
      else check_attachments atts

/-- Whether the first list is a leading segment of the second. -/
def list_starts_with : List Char → List Char → Bool
  | [], _ => true
  | _ :: _, [] => false
  | p :: ps, x :: xs => p = x && list_starts_with ps xs

/-- `str.startswith(pat)` via the character lists. -/
def str_starts_with (s pat : String) : Bool :=
  list_starts_with pat.data s.data

/-- `Sending._validate_unsubscribe` (sending.py lines 91-99): only a truthy
(present, non-empty) URL is checked; it must start with `http://` or
`https://`. -/
def _validate_unsubscribe (unsubscribe_url : Option String) :
    Except ValidationError Unit :=
  match unsubscribe_url with
  | none => .ok ()
  | some u =>
      if u.data.isEmpty then .ok ()
      else if str_starts_with u "http://" || str_starts_with u "https://" then .ok ()
      else
        .error ⟨"Unsubscribe URL must start with http:// or https://",
          some "unsubscribeUrl", some (.str u)⟩

/-- `contacts.py` `Contacts._validate_email`:
`if not email or "@" not in email: raise`. -/
def _validate_email (email : String) (field : String) : Except ValidationError Unit :=
  if email.data.isEmpty || !(email.data.contains '@') then
    .error ⟨"Invalid email address.", some field, some (.str email)⟩
  else .ok ()

/-! ## Payload builders -/

/-- Python truthiness of an optional string argument
(`if reply_to_email:` — `None` and `""` are falsy). -/
def str_truthy : Option String → Bool
  | none => false
  | some s => !s.data.isEmpty

/-- Python truthiness of an optional list argument. -/
def list_truthy {α : Type} : Option (List α) → Bool
  | none => false
  | some l => !l.isEmpty

/-- The `unsubscribe_data` dict built inside `send_email` / `send_bulk`. -/
def unsubscribe_data (unsubscribe_url unsubscribe_group_id : Option String) :
    List (String × JValue) :=
  (if str_truthy unsubscribe_url then
     [("url", JValue.str ((unsubscribe_url).getD ""))] else [])
  ++ (if str_truthy unsubscribe_group_id then
     [("groupId", JValue.str ((unsubscribe_group_id).getD ""))] else [])

/-- `Sending.send_email` (sending.py lines 102-207): run the three
validations in order, then build the payload — the five base keys, then
`replyTo`, `attachments` and `unsubscribe` only when their arguments are
truthy — and hand `POST /mails/send` to the client. -/
def send_email (to_email to_name from_email from_name subject html : String)
    (dynamic_data : List (String × JValue))
    (reply_to_email : Option String)
    (attachments : Option (List Attachment))
    (unsubscribe_url unsubscribe_group_id : Option String) :
    Except ValidationError ApiRequest :=
  match _validate_attachments attachments with
  | .error e => .error e
  | .ok () =>
  match _validate_dynamic_data html dynamic_data with
  | .error e => .error e
  | .ok () =>
  match _validate_unsubscribe unsubscribe_url with
  | .error e => .error e
  | .ok () =>
      let payload : List (String × JValue) :=
        [("to", JValue.obj [("email", JValue.str to_email), ("name", JValue.str to_name)]),
         ("from", JValue.obj [("email", JValue.str from_email), ("name", JValue.str from_name)]),
         ("subject", JValue.str subject),
         ("html", JValue.str html),
         ("dynamicData", JValue.obj dynamic_data)]
        ++ (if str_truthy reply_to_email then
              [("replyTo", JValue.obj [("email", JValue.str (reply_to_email.getD ""))])]
            else [])
        ++ (if list_truthy attachments then
              [("attachments", JValue.arr ((attachments.getD []).map Attachment.content))]
            else [])
        ++ (if str_truthy unsubscribe_url || str_truthy unsubscribe_group_id then
              [("unsubscribe", JValue.obj (unsubscribe_data unsubscribe_url unsubscribe_group_id))]
            else [])
      .ok ⟨"POST", "/mails/send", payload⟩

/-- The `for recipient in recipients` check of `send_bulk`: the first entry
missing the `email` or `name` key, if any. -/
def find_invalid_recipient : List Recipient → Option Recipient
  | [] => none
  | r :: rest =>
      if r.email.isNone || r.name.isNone then some r
      else find_invalid_recipient rest

/-- A recipient dict serialized into the payload. -/
def recipient_json (r : Recipient) : JValue :=
  .obj ((match r.email with | some e => [("email", JValue.str e)] | none => [])
    ++ (match r.name with | some n => [("name", JValue.str n)] | none => []))

/-- `Sending.send_bulk` (sending.py lines 210-325): recipients must be
non-empty, at most 100, and every entry must carry both `email` and `name`;
then dynamic data and the unsubscribe URL are validated and the payload is
built the same way as for `send_email` (no attachments here), handing
`POST /mails/bulk` to the client.  Note the code never checks recipient
email syntax. -/
def send_bulk (recipients : List Recipient)
    (from_email from_name subject html : String)
    (dynamic_data : List (String × JValue))
    (reply_to_email unsubscribe_url unsubscribe_group_id : Option String) :
    Except ValidationError ApiRequest :=
  if recipients.isEmpty then
    .error ⟨"The recipients list must contain at least one recipient.",
      some "recipients", none⟩
  else if recipients.length > 100 then
    .error ⟨"A maximum of 100 recipients is allowed for bulk email.",
      some "recipients", none⟩
  else
  match find_invalid_recipient recipients with
  | some r =>
      .error ⟨"Each recipient must include email and name.",
        some "recipients", some (.recipient r)⟩
  | none =>
  match _validate_dynamic_data html dynamic_data with
  | .error e => .error e
  | .ok () =>
  match _validate_unsubscribe unsubscribe_url with
  | .error e => .error e
  | .ok () =>
      let payload : List (String × JValue) :=
        [("recipients", JValue.arr (recipients.map recipient_json)),
         ("from", JValue.obj [("email", JValue.str from_email), ("name", JValue.str from_name)]),
         ("subject", JValue.str subject),
         ("html", JValue.str html),
         ("dynamicData", JValue.obj dynamic_data)]
        ++ (if str_truthy reply_to_email then
              [("replyTo", JValue.obj [("email", JValue.str (reply_to_email.getD ""))])]
            else [])
        ++ (if str_truthy unsubscribe_url || str_truthy unsubscribe_group_id then
              [("unsubscribe", JValue.obj (unsubscribe_data unsubscribe_url unsubscribe_group_id))]
            else [])
      .ok ⟨"POST", "/mails/bulk", payload⟩

/-! ## `Contacts.bulk_update` (`contacts.py`, lines 380-414) -/

/-- The per-contact loop of `bulk_update`: each contact must contain an
`email` key and its value must pass `_validate_email`; `idx` tracks
`enumerate(contacts)`. -/
def check_contacts_loop : Nat → List Contact → Except ValidationError Unit
  | _, [] => .ok ()
  | idx, c :: rest =>
      match c.email with
      | none =>
          .error ⟨"Contact at index " ++ toString idx ++ " must contain an email field.",
            some "contacts", some (.contact c)⟩
      | some e =>
          match _validate_email e "email" with
          | .error err => .error err
          | .ok () => check_contacts_loop (idx + 1) rest

/-- A contact dict serialized into the payload. -/
def contact_json (c : Contact) : JValue :=
  .obj (match c.email with | some e => [("email", JValue.str e)] | none => [])

/-- `Contacts.bulk_update`: contacts must be non-empty (the
`isinstance(contacts, list)` check cannot fail in this typed model), at most
100, and each must carry a valid email; only then is
`POST /contacts/bulk-update` handed to the client. -/
def bulk_update (contacts : List Contact) (run_workflow : Bool) :
    Except ValidationError ApiRequest :=
  if contacts.isEmpty then
    .error ⟨"Contacts list cannot be empty.", some "contacts", none⟩
  else if contacts.length > 100 then
    .error ⟨"Cannot update more than 100 contacts per request.",
      some "contacts", some (.num contacts.length)⟩
  else
  match check_contacts_loop 0 contacts with
  | .error e => .error e
  | .ok () =>
      .ok ⟨"POST", "/contacts/bulk-update",
        [("contacts", JValue.arr (contacts.map contact_json)),
         ("runWorkflow", JValue.bool run_workflow)]⟩

/-! ## Supporting lemmas -/

/-- The reported missing list enumerates exactly the set
`placeholders - provided_keys`. -/
lemma missing_list_toFinset (html : String) (dynamic_data : List (String × JValue)) :
    (missing_list html dynamic_data).toFinset = missing_set html dynamic_data := by
  ext x
  simp [missing_list, missing_set, placeholder_set, provided_key_set,
    List.mem_dedup, List.mem_filter, Finset.mem_sdiff, List.elem_iff]

/-- The first branch of `_validate_dynamic_data` fires exactly when some
placeholder lacks a provided key. -/
lemma missing_list_eq_nil_iff (html : String) (dynamic_data : List (String × JValue)) :
    missing_list html dynamic_data = [] ↔
      placeholder_set html ⊆ provided_key_set dynamic_data := by
  rw [← Finset.sdiff_eq_empty_iff_subset, ← missing_set, ← missing_list_toFinset,
    List.toFinset_eq_empty_iff]

/-- The extraction list is empty exactly when the placeholder set is. -/
lemma extract_placeholders_eq_nil_iff (html : String) :
    _extract_placeholders html = [] ↔ placeholder_set html = ∅ := by
  rw [placeholder_set, List.toFinset_eq_empty_iff]

/-- With no provided keys, the placeholder set must be empty for the missing
list to be empty. -/
lemma placeholder_set_empty_of_missing_nil (html : String)
    (h : missing_list html [] = []) : placeholder_set html = ∅ := by
  have hsub : placeholder_set html ⊆ provided_key_set [] :=
    (missing_list_eq_nil_iff _ _).mp h
  exact Finset.subset_empty.mp (by simpa [provided_key_set] using hsub)

/-! ## Claims about template-data validation -/

/-- C1: for every html string and dynamicData mapping,
`_validate_dynamic_data` fails exactly when some placeholder extracted from
the html lacks a corresponding key in the data; the reported missing-keys
list enumerates exactly `placeholders - providedKeys`; and when the provided
keys are a superset of the placeholders, validation passes regardless of
extra keys. -/
theorem validate_dynamic_data_missing_exactly (html : String)
    (dynamic_data : List (String × JValue)) :
    ((∃ e, _validate_dynamic_data html dynamic_data = .error e) ↔
      ¬ placeholder_set html ⊆ provided_key_set dynamic_data)
    ∧ (∀ e, _validate_dynamic_data html dynamic_data = .error e →
        ∃ l, e.value = some (.strs l) ∧ l.toFinset = missing_set html dynamic_data)
    ∧ (placeholder_set html ⊆ provided_key_set dynamic_data →
        _validate_dynamic_data html dynamic_data = .ok ()) := by
  by_cases hm : missing_list html dynamic_data = []
  · have hsub : placeholder_set html ⊆ provided_key_set dynamic_data :=
      (missing_list_eq_nil_iff _ _).mp hm
    have hok : _validate_dynamic_data html dynamic_data = .ok () := by
      unfold _validate_dynamic_data
      rw [if_neg (by simpa using hm), if_neg ?hc]
      case hc =>
        rintro ⟨hne, hemp⟩
        have hdd : dynamic_data = [] := List.isEmpty_iff.mp hemp
        subst hdd
        exact hne ((extract_placeholders_eq_nil_iff html).mpr
          (placeholder_set_empty_of_missing_nil html hm))
    refine ⟨⟨?_, fun hns => absurd hsub hns⟩, ?_, fun _ => hok⟩
    · rintro ⟨e, he⟩
      rw [hok] at he
      exact absurd he (by simp)
    · intro e he
      rw [hok] at he
      exact absurd he (by simp)
  · have herr : _validate_dynamic_data html dynamic_data =
        .error ⟨"Missing values for template placeholders", some "dynamicData",
          some (.strs (missing_list html dynamic_data))⟩ := by
      unfold _validate_dynamic_data
      rw [if_pos hm]
    refine ⟨⟨fun _ hsub => hm ((missing_list_eq_nil_iff _ _).mpr hsub),
      fun _ => ⟨_, herr⟩⟩, ?_, ?_⟩
    · intro e he
      rw [herr] at he
      cases he
      exact ⟨missing_list html dynamic_data, rfl, missing_list_toFinset html dynamic_data⟩
    · intro hsub
      exact absurd ((missing_list_eq_nil_iff _ _).mpr hsub) hm

/-- Witness for C1: a template with one placeholder and a matching key
passes. -/
theorem validate_dynamic_data_missing_exactly_witness :
    _validate_dynamic_data "Hi \x7b\x7bname\x7d\x7d" [("name", JValue.null)] = .ok () :=
  (validate_dynamic_data_missing_exactly "Hi \x7b\x7bname\x7d\x7d"
    [("name", JValue.null)]).2.2 (by decide)

/-- C9: the branch of `_validate_dynamic_data` for "placeholders exist but
dynamicData is empty" is unreachable: with a non-empty placeholder set and
an empty mapping, the missing-placeholders error fires first, and no input
whatsoever produces the empty-dynamicData message. -/
theorem empty_dynamic_data_branch_unreachable :
    (∀ html : String, (placeholder_set html).Nonempty →
      _validate_dynamic_data html [] =
        .error ⟨"Missing values for template placeholders", some "dynamicData",
          some (.strs (missing_list html []))⟩)
    ∧ (∀ (html : String) (dynamic_data : List (String × JValue)) (e : ValidationError),
        _validate_dynamic_data html dynamic_data = .error e →
        e.message ≠ "HTML contains template placeholders but dynamicData is empty") := by
  constructor
  · intro html hne
    have hml : missing_list html [] ≠ [] := by
      intro h0
      rw [placeholder_set_empty_of_missing_nil html h0] at hne
      exact absurd hne (by simp)
    unfold _validate_dynamic_data
    rw [if_pos hml]
  · intro html dynamic_data e he
    unfold _validate_dynamic_data at he
    by_cases h1 : missing_list html dynamic_data ≠ []
    · rw [if_pos h1] at he
      cases he
      exact (by decide : ("Missing values for template placeholders" : String) ≠
        "HTML contains template placeholders but dynamicData is empty")
    · rw [if_neg h1] at he
      by_cases h2 : _extract_placeholders html ≠ [] ∧ dynamic_data.isEmpty = true
      · exfalso
        have hml : missing_list html dynamic_data = [] := not_not.mp h1
        obtain ⟨hpl, hemp⟩ := h2
        have hdd : dynamic_data = [] := List.isEmpty_iff.mp hemp
        subst hdd
        exact hpl ((extract_placeholders_eq_nil_iff html).mpr
          (placeholder_set_empty_of_missing_nil html hml))
      · rw [if_neg h2] at he
        simp at he

/-- Witness for C9: a single-placeholder template with an empty mapping
produces the missing-placeholders error. -/
theorem empty_dynamic_data_branch_unreachable_witness :
    _validate_dynamic_data "\x7b\x7bx\x7d\x7d" [] =
      .error ⟨"Missing values for template placeholders", some "dynamicData",
        some (.strs (missing_list "\x7b\x7bx\x7d\x7d" []))⟩ :=
  empty_dynamic_data_branch_unreachable.1 "\x7b\x7bx\x7d\x7d" (by decide)

/-! ## Claims about attachment validation -/

/-- The extension loop accepts a list with no blocked filename. -/
lemma check_attachments_ok_of_no_blocked (l : List Attachment)
    (h : ∀ a ∈ l, is_blocked_filename (attachment_filename a) = false) :
    check_attachments l = .ok () := by
  induction l with
  | nil => rfl
  | cons a rest ih =>
      simp only [check_attachments]
      rw [if_neg (by simpa [is_blocked_filename] using h a (List.mem_cons_self a rest))]
      exact ih fun b hb => h b (List.mem_cons_of_mem a hb)

/-- The extension loop rejects a list containing a blocked filename, and the
error value carries a blocked filename from the list. -/
lemma check_attachments_error_of_blocked (l : List Attachment)
    (h : ∃ a ∈ l, is_blocked_filename (attachment_filename a) = true) :
    ∃ e, check_attachments l = .error e ∧
      ∃ f, e.value = some (.str f) ∧ f ∈ l.map attachment_filename ∧
        is_blocked_filename f = true := by
  induction l with
  | nil => simp at h
  | cons a rest ih =>
      by_cases ha : is_blocked_filename (attachment_filename a) = true
      · refine ⟨⟨"Attachment type " ++ file_ext (attachment_filename a) ++ " is not supported.",
          some "attachments", some (.str (attachment_filename a))⟩, ?_,
          attachment_filename a, rfl, by simp, ha⟩
        simp only [check_attachments]
        rw [if_pos (by simpa [is_blocked_filename] using ha)]
      · obtain ⟨b, hb, hbl⟩ := h
        rcases List.mem_cons.mp hb with rfl | hbrest
        · exact absurd hbl ha
        · obtain ⟨e, he, f, hf, hfm, hfb⟩ := ih ⟨b, hbrest, hbl⟩
          refine ⟨e, ?_, f, hf, by rw [List.map_cons]; exact List.mem_cons_of_mem _ hfm, hfb⟩
          simp only [check_attachments]
          rw [if_neg (by simpa [is_blocked_filename] using ha)]
          exact he

/-- C4: `_validate_attachments` accepts every list of at most 20 attachments
in which no filename has a blocked extension (case-insensitive segment after
the last dot, empty when no dot); rejects every list of length 21; and
rejects every list containing a blocked filename — when the length limit
does not fire first, the error identifies a blocked filename of the list. -/
theorem validate_attachments_spec (attachments : List Attachment) :
    ((attachments.length ≤ 20 ∧
        ∀ a ∈ attachments, is_blocked_filename (attachment_filename a) = false) →
      _validate_attachments (some attachments) = .ok ())
    ∧ (attachments.length = 21 → ∃ e, _validate_attachments (some attachments) = .error e)
    ∧ ((∃ a ∈ attachments, is_blocked_filename (attachment_filename a) = true) →
        ∃ e, _validate_attachments (some attachments) = .error e ∧
          (attachments.length ≤ 20 →
            ∃ f, e.value = some (.str f) ∧ f ∈ attachments.map attachment_filename ∧
              is_blocked_filename f = true)) := by
  refine ⟨?_, ?_, ?_⟩
  · rintro ⟨hlen, hnb⟩
    by_cases hemp : attachments.isEmpty
    · simp only [_validate_attachments]
      rw [if_pos hemp]
    · simp only [_validate_attachments]
      rw [if_neg hemp, if_neg (by omega : ¬ attachments.length > 20)]
      exact check_attachments_ok_of_no_blocked attachments hnb
  · intro hlen
    have hne : ¬ attachments.isEmpty = true := by
      cases attachments with
      | nil => simp at hlen
      | cons a rest => simp
    refine ⟨⟨"A maximum of 20 attachments is allowed.", some "attachments", none⟩, ?_⟩
    simp only [_validate_attachments]
    rw [if_neg hne, if_pos (by omega : attachments.length > 20)]
  · intro hbl
    by_cases h20 : attachments.length > 20
    · have hne : ¬ attachments.isEmpty = true := by
        cases attachments with
        | nil => simp at h20
        | cons a rest => simp
      refine ⟨⟨"A maximum of 20 attachments is allowed.", some "attachments", none⟩, ?_, ?_⟩
      · simp only [_validate_attachments]
        rw [if_neg hne, if_pos h20]
      · intro hle
        omega
    · obtain ⟨e, he, f, hf, hfm, hfb⟩ := check_attachments_error_of_blocked attachments hbl
      have hne : ¬ attachments.isEmpty = true := by
        obtain ⟨a, ha, _⟩ := hbl
        cases attachments with
        | nil => simp at ha
        | cons b rest => simp
      refine ⟨e, ?_, fun _ => ⟨f, hf, hfm, hfb⟩⟩
      simp only [_validate_attachments]
      rw [if_neg hne, if_neg h20]
      exact he

/-- Witness for C4: one harmless attachment passes. -/
theorem validate_attachments_spec_witness :
    _validate_attachments (some [⟨some "report.pdf", JValue.null⟩]) = .ok () :=
  (validate_attachments_spec [⟨some "report.pdf", JValue.null⟩]).1 (by decide)

/-! ## Claims about bulk-send recipient validation -/

/-- The recipient loop finds no offender exactly when every entry carries
both keys. -/
lemma find_invalid_recipient_eq_none_iff (l : List Recipient) :
    find_invalid_recipient l = none ↔ ∀ r ∈ l, r.email.isSome ∧ r.name.isSome := by
  induction l with
  | nil => simp [find_invalid_recipient]
  | cons r rest ih =>
      obtain ⟨em, nm⟩ := r
      cases em <;> cases nm <;> simp [find_invalid_recipient, ih]

/-- Counterexample to C2: an entry whose email fails `_validate_email`
(it contains no `@`) nonetheless passes `send_bulk` validation — the
request is built and issued.  `send_bulk` never checks recipient email
syntax. -/
theorem send_bulk_email_syntax_unchecked_cex :
    _validate_email "invalid-email" "email" =
      .error ⟨"Invalid email address.", some "email", some (.str "invalid-email")⟩
    ∧ ∃ req, send_bulk [⟨some "invalid-email", some "Bob"⟩] "from@x.com" "From" "Subj" ""
        [] none none none = .ok req :=
  ⟨rfl, ⟨_, rfl⟩⟩

/-- C2 (amended): `send_bulk` recipient validation fails exactly when the
list is empty, longer than 100, or some entry lacks the `email` or `name`
key; recipient email syntax is never checked, so any list of length 1-100
whose entries carry both keys passes regardless of email contents. -/
theorem send_bulk_recipient_validation_iff (recipients : List Recipient)
    (from_email from_name subject html : String)
    (dynamic_data : List (String × JValue))
    (reply_to_email unsubscribe_url unsubscribe_group_id : Option String)
    (hdd : _validate_dynamic_data html dynamic_data = .ok ())
    (huu : _validate_unsubscribe unsubscribe_url = .ok ()) :
    (∃ req, send_bulk recipients from_email from_name subject html dynamic_data
        reply_to_email unsubscribe_url unsubscribe_group_id = .ok req) ↔
      (recipients ≠ [] ∧ recipients.length ≤ 100 ∧
        ∀ r ∈ recipients, r.email.isSome ∧ r.name.isSome) := by
  by_cases h1 : recipients.isEmpty
  · have h0 : recipients = [] := List.isEmpty_iff.mp h1
    subst h0
    simp [send_bulk]
  · by_cases h2 : recipients.length > 100
    · constructor
      · rintro ⟨req, hreq⟩
        unfold send_bulk at hreq
        rw [if_neg h1, if_pos h2] at hreq
        exact absurd hreq (by simp)
      · rintro ⟨-, hle, -⟩
        omega
    · cases hf : find_invalid_recipient recipients with
      | some r =>
          constructor
          · rintro ⟨req, hreq⟩
            unfold send_bulk at hreq
            rw [if_neg h1, if_neg h2, hf] at hreq
            exact absurd hreq (by simp)
          · rintro ⟨hne, hle, hall⟩
            have := (find_invalid_recipient_eq_none_iff recipients).mpr hall
            rw [hf] at this
            exact absurd this (by simp)
      | none =>
          constructor
          · intro _
            refine ⟨?_, by omega, (find_invalid_recipient_eq_none_iff recipients).mp hf⟩
            intro h0
            subst h0
            simp at h1
          · intro _
            unfold send_bulk
            rw [if_neg h1, if_neg h2, hf, hdd, huu]
            exact ⟨_, rfl⟩

/-- Witness for C2 (amended): a single well-keyed recipient passes. -/
theorem send_bulk_recipient_validation_iff_witness :
    ∃ req, send_bulk [⟨some "a@x.com", some "Bob"⟩] "f@x.com" "F" "s" "" []
        none none none = .ok req :=
  (send_bulk_recipient_validation_iff [⟨some "a@x.com", some "Bob"⟩] "f@x.com" "F" "s" ""
      [] none none none rfl rfl).mpr (by decide)

/-! ## Claims about the transport adapter -/

/-- Counterexample to C3: a 301 response is not classified as a failure —
`response.ok` is true for every status below 400, so the body is returned
as a success.  The claim that every 3xx status signals `ApiFailure` is
false. -/
theorem request_redirect_status_returned_cex :
    handleRequest (.response ⟨301, "redirect", none⟩) = .success (.text "redirect")
    ∧ ∀ e, handleRequest (.response ⟨301, "redirect", none⟩) ≠ .failure e := by
  refine ⟨rfl, ?_⟩
  intro e h
  rw [show handleRequest (.response ⟨301, "redirect", none⟩)
      = .success (.text "redirect") from rfl] at h
  exact RequestResult.noConfusion h

/-- C3 (amended): `_request` signals the generic `AutosendError` carrying
the status code and raw body text exactly for statuses in `[400, 600)`
other than 401; every status outside that range — in particular every
3xx — is returned as a success body, never as a failure. -/
theorem request_non2xx_classification :
    (∀ r : HttpResponse, 400 ≤ r.statusCode → r.statusCode < 600 →
      r.statusCode ≠ 401 →
      handleRequest (.response r) = .failure (.autosendError r.statusCode r.text))
    ∧ (∀ r : HttpResponse, r.statusCode < 400 ∨ 600 ≤ r.statusCode →
      ∃ b, handleRequest (.response r) = .success b) := by
  constructor
  · intro r h4 h6 h401
    simp only [handleRequest]
    rw [if_neg h401, if_pos (by simp [responseOk]; omega)]
  · intro r hout
    have h401 : r.statusCode ≠ 401 := by omega
    simp only [handleRequest]
    rw [if_neg h401, if_neg (by simp [responseOk]; omega)]
    cases r.jsonBody with
    | some v => exact ⟨.json v, rfl⟩
    | none => exact ⟨.text r.text, rfl⟩

/-- Witness for C3 (amended): a 404 with body text becomes the generic
error carrying both. -/
theorem request_non2xx_classification_witness :
    handleRequest (.response ⟨404, "not found", none⟩) =
      .failure (.autosendError 404 "not found") :=
  request_non2xx_classification.1 ⟨404, "not found", none⟩ (by decide) (by decide) (by decide)

/-- C6: a 401 response is always classified as `AuthenticationError`,
whatever the body holds, and never as the generic `AutosendError` — the
401 check precedes the generic non-ok check. -/
theorem request_401_authentication_precedence (r : HttpResponse)
    (h : r.statusCode = 401) :
    handleRequest (.response r) =
      .failure (.authenticationError "Invalid or unauthorized API key.")
    ∧ ∀ s t, handleRequest (.response r) ≠ .failure (.autosendError s t) := by
  have hcls : handleRequest (.response r) =
      .failure (.authenticationError "Invalid or unauthorized API key.") := by
    simp only [handleRequest]
    rw [if_pos h]
  refine ⟨hcls, ?_⟩
  intro s t hc
  rw [hcls] at hc
  simp at hc

/-- Witness for C6: a 401 carrying an arbitrary JSON body. -/
theorem request_401_authentication_precedence_witness :
    handleRequest (.response ⟨401, "denied", some (.str "body")⟩) =
      .failure (.authenticationError "Invalid or unauthorized API key.")
    ∧ ∀ s t, handleRequest (.response ⟨401, "denied", some (.str "body")⟩) ≠
        .failure (.autosendError s t) :=
  request_401_authentication_precedence ⟨401, "denied", some (.str "body")⟩ rfl

/-! ## Claim about the error taxonomy -/

/-- C10: every exception the library raises — the transport errors
(`RequestError`, `AuthenticationError`, the generic `AutosendError`) and
the `ValidationError` of the validation rules — is an instance of the
single base class `AutosendError`, so catching `AutosendError` catches
every library-originated failure. -/
theorem all_errors_subclass_autosend :
    (∀ e : RaisedError, isSubclassOf (classOf e) ExcClass.autosendError = true)
    ∧ (∀ (o : RequestOutcome) (e : RaisedError), handleRequest o = .failure e →
      isSubclassOf (classOf e) ExcClass.autosendError = true)
    ∧ isSubclassOf ExcClass.validationError ExcClass.autosendError = true := by
  have hall : ∀ e : RaisedError, isSubclassOf (classOf e) ExcClass.autosendError = true := by
    intro e
    cases e <;> rfl
  exact ⟨hall, fun _ e _ => hall e, rfl⟩

/-- Witness for C10: a 500 response raises the generic `AutosendError`,
an instance of itself. -/
theorem all_errors_subclass_autosend_witness :
    isSubclassOf (classOf (.autosendError 500 "oops")) ExcClass.autosendError = true :=
  all_errors_subclass_autosend.2.1 (.response ⟨500, "oops", none⟩)
    (.autosendError 500 "oops") rfl

/-! ## Claims about send_email -/

/-- Counterexample to C5: `send_email` called with empty `to` and `from`
addresses — both of which fail the `_validate_email` syntactic check —
passes every validation and issues the request.  `send_email` never
enforces the Address invariant. -/
theorem send_email_no_address_validation_cex :
    _validate_email "" "email" =
      .error ⟨"Invalid email address.", some "email", some (.str "")⟩
    ∧ send_email "" "Bob" "" "Alice" "Subj" "" [] none none none none =
      .ok ⟨"POST", "/mails/send",
        [("to", .obj [("email", .str ""), ("name", .str "Bob")]),
         ("from", .obj [("email", .str ""), ("name", .str "Alice")]),
         ("subject", .str "Subj"), ("html", .str ""), ("dynamicData", .obj [])]⟩ :=
  ⟨rfl, rfl⟩

/-- C5 (amended): `send_email` performs no syntactic validation of the
`to`/`from` email addresses: for every choice of address strings — empty or
lacking an `@` included — a call whose other inputs pass validation issues
the request carrying those addresses verbatim. -/
theorem send_email_builds_request_without_address_check
    (to_email to_name from_email from_name subject : String) :
    send_email to_email to_name from_email from_name subject "" [] none none none none =
      .ok ⟨"POST", "/mails/send",
        [("to", .obj [("email", .str to_email), ("name", .str to_name)]),
         ("from", .obj [("email", .str from_email), ("name", .str from_name)]),
         ("subject", .str subject), ("html", .str ""), ("dynamicData", .obj [])]⟩ :=
  rfl

/-- C7: when all four optional arguments of `send_email` are absent, the
body of the issued request has exactly the keys
`to, from, subject, html, dynamicData` — no `replyTo`, `attachments` or
`unsubscribe` key. -/
theorem send_email_minimal_payload_keys
    (to_email to_name from_email from_name subject html : String)
    (dynamic_data : List (String × JValue)) (req : ApiRequest)
    (h : send_email to_email to_name from_email from_name subject html dynamic_data
        none none none none = .ok req) :
    req.body.map Prod.fst = ["to", "from", "subject", "html", "dynamicData"] := by
  rcases hdd : _validate_dynamic_data html dynamic_data with e | u
  · have herr : send_email to_email to_name from_email from_name subject html dynamic_data
        none none none none = .error e := by
      unfold send_email
      rw [hdd]
      rfl
    rw [herr] at h
    exact absurd h (by simp)
  · cases u
    have hok : send_email to_email to_name from_email from_name subject html dynamic_data
        none none none none = .ok ⟨"POST", "/mails/send",
          [("to", .obj [("email", .str to_email), ("name", .str to_name)]),
           ("from", .obj [("email", .str from_email), ("name", .str from_name)]),
           ("subject", .str subject), ("html", .str html),
           ("dynamicData", .obj dynamic_data)]⟩ := by
      unfold send_email
      rw [hdd]
      rfl
    rw [hok] at h
    cases h
    rfl

/-- Witness for C7: a concrete minimal call produces exactly the five
base keys. -/
theorem send_email_minimal_payload_keys_witness :
    (⟨"POST", "/mails/send",
      [("to", .obj [("email", .str "u@x"), ("name", .str "U")]),
       ("from", .obj [("email", .str "f@x"), ("name", .str "F")]),
       ("subject", .str "s"), ("html", .str ""),
       ("dynamicData", .obj [])]⟩ : ApiRequest).body.map Prod.fst =
      ["to", "from", "subject", "html", "dynamicData"] :=
  send_email_minimal_payload_keys "u@x" "U" "f@x" "F" "s" "" [] _ rfl

/-! ## Claim about bulk contact updates -/

/-- C8: `bulk_update` with more than 100 contacts fails with the limit
`ValidationError` and never produces a request — the transport is invoked
zero times. -/
theorem bulk_update_limit_before_transport (contacts : List Contact)
    (run_workflow : Bool) (h : contacts.length > 100) :
    bulk_update contacts run_workflow =
      .error ⟨"Cannot update more than 100 contacts per request.",
        some "contacts", some (.num contacts.length)⟩
    ∧ ∀ req, bulk_update contacts run_workflow ≠ .ok req := by
  have hne : ¬ contacts.isEmpty = true := by
    cases contacts with
    | nil => simp at h
    | cons a rest => simp
  have herr : bulk_update contacts run_workflow =
      .error ⟨"Cannot update more than 100 contacts per request.",
        some "contacts", some (.num contacts.length)⟩ := by
    unfold bulk_update
    rw [if_neg hne, if_pos h]
  refine ⟨herr, ?_⟩
  intro req hc
  rw [herr] at hc
  exact absurd hc (by simp)

/-- Witness for C8: 101 contacts are rejected with the limit error. -/
theorem bulk_update_limit_before_transport_witness :
    bulk_update (List.replicate 101 (Contact.mk (some "a@b.c"))) false =
      .error ⟨"Cannot update more than 100 contacts per request.",
        some "contacts",
        some (.num (List.replicate 101 (Contact.mk (some "a@b.c"))).length)⟩
    ∧ ∀ req, bulk_update (List.replicate 101 (Contact.mk (some "a@b.c"))) false ≠
        .ok req :=
  bulk_update_limit_before_transport (List.replicate 101 (Contact.mk (some "a@b.c")))
    false (by decide)

end Autosend
